import Mathlib

/-!
Shallow embedding of the simulation core of src/game.js (an endless 3D
runner game).  JavaScript numbers are modelled as rationals; the scene
graph, rendering, audio and DOM wiring are collaborators outside the core
and are omitted.  `Math.random()` calls are modelled by draws consumed in
order from an explicit list (`takeRand`).  Each definition mirrors the
source function of the same name.
-/

namespace JumpyDash

/-- A 3D vector (THREE.Vector3 restricted to the fields the core reads). -/
structure Vec3 where
  x : ℚ
  y : ℚ
  z : ℚ
  deriving DecidableEq, Repr

/-- An axis-aligned box (THREE.Box3). -/
structure Box3 where
  min : Vec3
  max : Vec3
  deriving DecidableEq, Repr

/-- THREE.Box3.intersectsBox: rejects only on strict separation, so
touching boxes count as intersecting (game.js line 787 call site). -/
def Box3.intersects (a b : Box3) : Bool :=
  !(decide (b.max.x < a.min.x) || decide (b.min.x > a.max.x) ||
    decide (b.max.y < a.min.y) || decide (b.min.y > a.max.y) ||
    decide (b.max.z < a.min.z) || decide (b.min.z > a.max.z))

/-- THREE.Box3.expandByScalar (used with -0.1 in checkCollisions). -/
def Box3.expandByScalar (b : Box3) (s : ℚ) : Box3 :=
  ⟨⟨b.min.x - s, b.min.y - s, b.min.z - s⟩,
   ⟨b.max.x + s, b.max.y + s, b.max.z + s⟩⟩

/-- Squared Euclidean distance.  `a.distanceTo b < r` (for r ≥ 0) is embedded
as `distSq a b < r ^ 2`, avoiding square roots over ℚ. -/
def distSq (a b : Vec3) : ℚ :=
  (a.x - b.x) ^ 2 + (a.y - b.y) ^ 2 + (a.z - b.z) ^ 2

-- Constants from game.js lines 14-20.
def minSpeed : ℚ := 5
def maxSpeed : ℚ := 15
def acceleration : ℚ := 0.1
def laneWidth : ℚ := 1.2
def BLOCK_SIZE : ℚ := 1

/-- The player (createPlayer, game.js lines 239-341): position, vertical
velocity and the jumping flag.  The latent `currentLane`/`targetX` fields are
never read by the core and are omitted. -/
structure Player where
  pos : Vec3
  verticalVelocity : ℚ
  isJumping : Bool
  deriving DecidableEq, Repr

/-- An entry of the `obstacles` array.  Spike/cactus/wood/UFO entries carry a
`collisionSize` and (sprites) a `targetScale`; tree decorations carry
neither.  The write-only `hit` field of the source is omitted. -/
structure Obstacle where
  pos : Vec3
  scale : Vec3
  isDecoration : Bool
  growing : Bool
  targetScale : Option Vec3
  collisionSize : Option Vec3
  deriving DecidableEq, Repr

/-- An entry of the `coins` array.  `rotY` is the mesh's rotation.y, spun by
the update loop; the constant rotation.z = π/4 is cosmetic and omitted. -/
structure Coin where
  pos : Vec3
  scale : Vec3
  rotY : ℚ
  active : Bool
  growing : Bool
  deriving DecidableEq, Repr

/-- An entry of the `groundBlocks` array (game.js line 11). -/
structure GroundBlock where
  pos : Vec3
  originalY : ℚ
  falling : Bool
  rising : Bool
  velocity : ℚ
  deriving DecidableEq, Repr

/-- The mutable module state of the core: player, the three collections,
and the run counters.  `finalScore` models the value written to the
final-score display by gameOver(). -/
structure GameState where
  player : Player
  obstacles : List Obstacle
  coins : List Coin
  groundBlocks : List GroundBlock
  gameActive : Bool
  score : ℕ
  speed : ℚ
  lastObstacleZ : ℚ
  finalScore : ℕ
  deriving DecidableEq, Repr

/-- Axis-aligned bounds of the player group as computed by
`Box3.setFromObject(player)` (game.js line 751), relative to the player's
position.  Union of the five meshes created in createPlayer:
body 0.6×0.6×0.6 at (0,0,0); mask plane 0.5×0.3 at (0,0.1,0.31);
headband 0.5×0.1×0.5 at (0,0.35,0); belt 0.65×0.08×0.65 at (0,-0.1,0);
shuriken plane 0.15×0.15 rotated into the yz-plane at (0.31,0.2,0).
The belt dominates x and z (±0.325), the body the bottom (-0.3), the
headband the top (+0.4). -/
def playerBox (p : Vec3) : Box3 :=
  ⟨⟨p.x - 0.325, p.y - 0.3, p.z - 0.325⟩,
   ⟨p.x + 0.325, p.y + 0.4, p.z + 0.325⟩⟩

/-- The forgiving player hitbox: `playerBox.expandByScalar(-0.1)`
(game.js line 752). -/
def shrunkPlayerBox (p : Vec3) : Box3 :=
  (playerBox p).expandByScalar (-0.1)

/-- The obstacle collision box built in checkCollisions (lines 780-785):
centered on the obstacle's position, with total extent `collisionSize`
(default 0.6×0.6×0.6), each coordinate offset by half the size. -/
def collisionBoxOf (o : Obstacle) : Box3 :=
  let size := o.collisionSize.getD ⟨0.6, 0.6, 0.6⟩
  ⟨⟨o.pos.x - size.x / 2, o.pos.y - size.y / 2, o.pos.z - size.z / 2⟩,
   ⟨o.pos.x + size.x / 2, o.pos.y + size.y / 2, o.pos.z + size.z / 2⟩⟩

/-- Draw the next `Math.random()` value from the stream; an exhausted
stream yields 1/2 (theorems only ever rely on supplied draws). -/
def takeRand : List ℚ → ℚ × List ℚ
  | [] => (1/2, [])
  | d :: rest => (d, rest)

/-- createObstacle (spike), game.js lines 617-629. -/
def createObstacle (lane z : ℚ) (instant : Bool) : Obstacle :=
  { pos := ⟨lane * laneWidth, 0.8, z⟩
    scale := if instant then ⟨1, 1, 1⟩ else ⟨0.1, 0.1, 0.1⟩
    isDecoration := false
    growing := !instant
    targetScale := none
    collisionSize := some ⟨0.6, 0.6, 0.6⟩ }

/-- createCactus, game.js lines 631-644. -/
def createCactus (lane z : ℚ) (instant : Bool) : Obstacle :=
  { pos := ⟨lane * laneWidth, 1.0, z⟩
    scale := if instant then ⟨1.0, 1.2, 1.0⟩ else ⟨0.1, 0.1, 0.1⟩
    isDecoration := false
    growing := !instant
    targetScale := some ⟨1.0, 1.2, 1.0⟩
    collisionSize := some ⟨0.6, 0.8, 0.6⟩ }

/-- createWood, game.js lines 646-659. -/
def createWood (lane z : ℚ) (instant : Bool) : Obstacle :=
  { pos := ⟨lane * laneWidth, 0.8, z⟩
    scale := if instant then ⟨1.0, 0.8, 1.0⟩ else ⟨0.1, 0.1, 0.1⟩
    isDecoration := false
    growing := !instant
    targetScale := some ⟨1.0, 0.8, 1.0⟩
    collisionSize := some ⟨0.7, 0.5, 0.6⟩ }

/-- createUfo, game.js lines 661-675. -/
def createUfo (lane z : ℚ) (instant : Bool) : Obstacle :=
  { pos := ⟨lane * laneWidth, 2.2, z⟩
    scale := if instant then ⟨1.2, 0.8, 1.0⟩ else ⟨0.1, 0.1, 0.1⟩
    isDecoration := false
    growing := !instant
    targetScale := some ⟨1.2, 0.8, 1.0⟩
    collisionSize := some ⟨0.8, 0.6, 0.6⟩ }

/-- spawnTree, game.js lines 531-580: a pure decoration. -/
def spawnTree (x y z : ℚ) (instant : Bool) : Obstacle :=
  { pos := ⟨x, y, z⟩
    scale := if instant then ⟨1, 1, 1⟩ else ⟨0.1, 0.1, 0.1⟩
    isDecoration := true
    growing := !instant
    targetScale := none
    collisionSize := none }

/-- createCoin, game.js lines 677-692: high coins at y 2.5, low at y 1.0. -/
def createCoin (lane z : ℚ) (high instant : Bool) : Coin :=
  { pos := ⟨lane * laneWidth, if high then 2.5 else 1.0, z⟩
    scale := if instant then ⟨1, 1, 1⟩ else ⟨0.1, 0.1, 0.1⟩
    rotY := 0
    active := true
    growing := !instant }

/-- Result of spawnItems: spawned entities, the updated lastObstacleZ and
the remaining random stream. -/
structure ItemsResult where
  obstacles : List Obstacle
  coins : List Coin
  lastObstacleZ : ℚ
  rest : List ℚ
  deriving DecidableEq, Repr

/-- spawnItems, game.js lines 582-615.  Draws are consumed in call order:
the near-obstacle branch draws once (coin at 6%); otherwise the first draw
decides the 30% obstacle branch, whose type is sub-selected by a second
draw (UFO < 0.10, cactus < 0.20, wood < 0.50, spike otherwise) with a third
draw for the 40% companion coin (low exactly for a UFO); failing the 30%
branch, a second draw decides an 8% solitary low coin. -/
def spawnItems (z lastZ : ℚ) (instant : Bool) (rs : List ℚ) : ItemsResult :=
  if z - lastZ < 6 then
    let (d, rs1) := takeRand rs
    if d < 0.06 then ⟨[], [createCoin 0 z false instant], lastZ, rs1⟩
    else ⟨[], [], lastZ, rs1⟩
  else
    let (dA, rs1) := takeRand rs
    if dA < 0.3 then
      let (dT, rs2) := takeRand rs1
      let isUfoB : Bool := decide (dT < 0.10)
      let ob :=
        if dT < 0.10 then createUfo 0 z instant
        else if dT < 0.20 then createCactus 0 z instant
        else if dT < 0.50 then createWood 0 z instant
        else createObstacle 0 z instant
      let (dC, rs3) := takeRand rs2
      if dC < 0.4 then ⟨[ob], [createCoin 0 z (!isUfoB) instant], z, rs3⟩
      else ⟨[ob], [], z, rs3⟩
    else
      let (dB, rs2) := takeRand rs1
      if dB < 0.08 then ⟨[], [createCoin 0 z false instant], lastZ, rs2⟩
      else ⟨[], [], lastZ, rs2⟩

/-- Result of spawnGroundRow. -/
structure RowResult where
  ground : List GroundBlock
  obstacles : List Obstacle
  coins : List Coin
  lastObstacleZ : ℚ
  rest : List ℚ
  deriving DecidableEq, Repr

/-- spawnGroundRow, game.js lines 493-529: one main-lane block plus two
decorative-lane blocks, a 60% tree on the right lane, and items only for
rows with z > 5. -/
def spawnGroundRow (z : ℚ) (instant : Bool) (lastZ : ℚ) (rs : List ℚ) :
    RowResult :=
  let mainB : GroundBlock :=
    ⟨⟨0, if instant then 0 else -5, z⟩, 0, false, !instant, 0⟩
  let laneL : GroundBlock :=
    ⟨⟨-laneWidth, if instant then -0.2 else -5, z⟩, -0.2, false, !instant, 0⟩
  let laneR : GroundBlock :=
    ⟨⟨laneWidth, if instant then -0.2 else -5, z⟩, -0.2, false, !instant, 0⟩
  let (dTree, rs1) := takeRand rs
  let trees : List Obstacle :=
    if dTree < 0.6 then [spawnTree laneWidth 0.6 z instant] else []
  if z > 5 then
    let r := spawnItems z lastZ instant rs1
    ⟨[mainB, laneL, laneR], trees ++ r.obstacles, r.coins, r.lastObstacleZ,
      r.rest⟩
  else
    ⟨[mainB, laneL, laneR], trees, [], lastZ, rs1⟩

/-- The initial-population loop of resetGame (lines 233-235), threading
`lastObstacleZ` and the random stream through successive rows. -/
def populateRows :
    List ℚ → ℚ → List ℚ →
      List GroundBlock × List Obstacle × List Coin × ℚ × List ℚ
  | [], lastZ, rs => ([], [], [], lastZ, rs)
  | z :: zs, lastZ, rs =>
    let r := spawnGroundRow z true lastZ rs
    let t := populateRows zs r.lastObstacleZ r.rest
    (r.ground ++ t.1, r.obstacles ++ t.2.1, r.coins ++ t.2.2.1, t.2.2.2.1,
      t.2.2.2.2)

/-- The z coordinates of the initial safe window: i*BLOCK_SIZE for
i = -5,...,14. -/
def rowZs : List ℚ := (List.range 20).map (fun i => (i : ℚ) - 5)

/-- resetGame, game.js lines 209-236: clear every collection, reset the run
counters and the player pose, and repopulate rows -5..14 instantly.  The
final-score display is untouched by reset (only hidden). -/
def resetGame (g : GameState) (rs : List ℚ) : GameState :=
  let t := populateRows rowZs (-999) rs
  { player := ⟨⟨0, 0.8, 0⟩, 0, false⟩
    obstacles := t.2.1
    coins := t.2.2.1
    groundBlocks := t.1
    gameActive := true
    score := 0
    speed := minSpeed
    lastObstacleZ := t.2.2.2.1
    finalScore := g.finalScore }

/-- player.update, game.js lines 314-329 (the camera/light follow is
rendering-side): pin x to 0; while jumping integrate gravity -35 into the
velocity, then the position from the new velocity, and land (snap y to 0.8,
zero the velocity, clear the flag) once y ≤ 0.8; finally advance z by
speed*dt. -/
def playerUpdate (speed dt : ℚ) (p : Player) : Player :=
  let p1 :=
    if p.isJumping then
      let v := p.verticalVelocity - 35 * dt
      let y := p.pos.y + v * dt
      if y ≤ 0.8 then
        ({ pos := ⟨0, 0.8, p.pos.z⟩, verticalVelocity := 0,
           isJumping := false } : Player)
      else
        { pos := ⟨0, y, p.pos.z⟩, verticalVelocity := v, isJumping := true }
    else
      { p with pos := ⟨0, p.pos.y, p.pos.z⟩ }
  { p1 with pos := ⟨p1.pos.x, p1.pos.y, p1.pos.z + speed * dt⟩ }

/-- onInputStart, game.js lines 344-367 (button filtering and audio are
collaborator concerns): ignored unless the run is active; a press while
grounded launches the jump at velocity 15. -/
def onInputStart (g : GameState) : GameState :=
  if g.gameActive = false then g
  else if g.player.isJumping = false then
    { g with player :=
        { g.player with verticalVelocity := 15, isJumping := true } }
  else g

/-- onInputEnd, game.js lines 369-383: ignored unless active; a release
while jumping with velocity above 5 clamps the velocity to 5. -/
def onInputEnd (g : GameState) : GameState :=
  if g.gameActive = false then g
  else if g.player.isJumping = true ∧ 5 < g.player.verticalVelocity then
    { g with player := { g.player with verticalVelocity := 5 } }
  else g

/-- The acceleration step of update (game.js lines 701-703): add
acceleration*dt only while the speed is below maxSpeed; no clamp. -/
def speedStep (s dt : ℚ) : ℚ :=
  if s < maxSpeed then s + acceleration * dt else s

/-- Per-block part of the ground management loop (game.js lines 714-742):
rising ease toward originalY with snap inside 0.05; mark blocks more than 3
behind the player as falling; integrate falling blocks and drop them below
y = -10 (`none`). -/
def groundBlockStep (dt pz : ℚ) (b : GroundBlock) : Option GroundBlock :=
  let b1 :=
    if b.rising then
      let y := b.pos.y + (b.originalY - b.pos.y) * 10 * dt
      if |y - b.originalY| < 0.05 then
        { b with pos := ⟨b.pos.x, b.originalY, b.pos.z⟩, rising := false }
      else
        { b with pos := ⟨b.pos.x, y, b.pos.z⟩ }
    else b
  let b2 :=
    if b1.pos.z < pz - 3 then { b1 with falling := true, rising := false }
    else b1
  if b2.falling then
    let v := b2.velocity + 20 * dt
    let y := b2.pos.y - v * dt
    if y < -10 then none
    else some { b2 with pos := ⟨b2.pos.x, y, b2.pos.z⟩, velocity := v }
  else some b2

/-- The obstacle pop-in animation (game.js lines 759-769): scale.x grows by
5*dt; at or past the target the scale snaps and the flag clears, otherwise
the whole scale is set proportional to the target at the grown x-fraction. -/
def growObstacle (dt : ℚ) (o : Obstacle) : Obstacle :=
  if o.growing then
    let target := o.targetScale.getD ⟨1, 1, 1⟩
    let s := o.scale.x + 5 * dt
    if target.x ≤ s then { o with scale := target, growing := false }
    else
      let frac := s / target.x
      { o with scale := ⟨target.x * frac, target.y * frac, target.z * frac⟩ }
  else o

/-- The coin pop-in animation (game.js lines 797-805). -/
def growCoin (dt : ℚ) (c : Coin) : Coin :=
  if c.growing then
    let s := c.scale.x + 5 * dt
    if (1 : ℚ) ≤ s then { c with scale := ⟨1, 1, 1⟩, growing := false }
    else { c with scale := ⟨s, s, s⟩ }
  else c

/-- The obstacle half of checkCollisions (game.js lines 755-790), in list
order: grow, prune entries more than 5 behind the player, skip decorations,
and flag a hit when the shrunk player box intersects the collision box.
The returned Bool records whether gameOver() was called. -/
def obstaclePhase (dt pz : ℚ) (pb : Box3) :
    List Obstacle → List Obstacle × Bool
  | [] => ([], false)
  | o :: rest =>
    let o1 := growObstacle dt o
    let r := obstaclePhase dt pz pb rest
    if o1.pos.z < pz - 5 then r
    else if o1.isDecoration then (o1 :: r.1, r.2)
    else if pb.intersects (collisionBoxOf o1) then (o1 :: r.1, true)
    else (o1 :: r.1, r.2)

/-- The coin half of checkCollisions (game.js lines 793-817): grow, prune
entries more than 5 behind the player, and collect an active coin strictly
within distance 1.5 of the player (removing it and counting the score
increment). -/
def coinPhase (dt : ℚ) (p : Vec3) : List Coin → List Coin × ℕ
  | [] => ([], 0)
  | c :: rest =>
    let c1 := growCoin dt c
    let r := coinPhase dt p rest
    if c1.pos.z < p.z - 5 then r
    else if c1.active && decide (distSq c1.pos p < 1.5 ^ 2) then
      (r.1, r.2 + 1)
    else (c1 :: r.1, r.2)

/-- The player stage of update: player.update runs with the pre-tick speed. -/
def tickPlayer (g : GameState) (dt : ℚ) : Player :=
  playerUpdate g.speed dt g.player

/-- Result of the row-spawn stage of update. -/
structure SpawnOut where
  ground : List GroundBlock
  obstacles : List Obstacle
  coins : List Coin
  lastZ : ℚ
  rest : List ℚ
  deriving DecidableEq, Repr

/-- The row-spawn stage of update (game.js lines 708-711): when the most
recently pushed ground block is within 15 units of the player's (updated)
z, spawn one non-instant row one block further. -/
def tickSpawn (g : GameState) (pz : ℚ) (rs : List ℚ) : SpawnOut :=
  match g.groundBlocks.getLast? with
  | none => ⟨g.groundBlocks, g.obstacles, g.coins, g.lastObstacleZ, rs⟩
  | some lb =>
    if lb.pos.z < pz + 15 then
      let r := spawnGroundRow (lb.pos.z + BLOCK_SIZE) false g.lastObstacleZ rs
      ⟨g.groundBlocks ++ r.ground, g.obstacles ++ r.obstacles,
        g.coins ++ r.coins, r.lastObstacleZ, r.rest⟩
    else ⟨g.groundBlocks, g.obstacles, g.coins, g.lastObstacleZ, rs⟩

/-- update, game.js lines 695-748, together with checkCollisions and
gameOver (lines 750-836): a no-op unless active; otherwise move the player,
accelerate, spawn a row when needed, manage ground blocks, run the
obstacle/coin phases, and spin the coins.  gameOver() flips `gameActive`
and records the score at that moment as `finalScore`; the remainder of the
tick still runs. -/
def update (dt : ℚ) (g : GameState) (rs : List ℚ) : GameState × List ℚ :=
  if g.gameActive = false then (g, rs)
  else
    let p := tickPlayer g dt
    let sp := tickSpawn g p.pos.z rs
    let gbs := sp.ground.filterMap (groundBlockStep dt p.pos.z)
    let ob := obstaclePhase dt p.pos.z (shrunkPlayerBox p.pos) sp.obstacles
    let cp := coinPhase dt p.pos sp.coins
    ({ player := p
       obstacles := ob.1
       coins := cp.1.map (fun c => { c with rotY := c.rotY + 2 * dt })
       groundBlocks := gbs
       gameActive := !ob.2
       score := g.score + cp.2
       speed := speedStep g.speed dt
       lastObstacleZ := sp.lastZ
       finalScore := if ob.2 then g.score else g.finalScore }, sp.rest)

/-- A concrete active state: player grounded at the origin, one instantly
spawned spike at the player's position, one coin half a unit ahead, no
ground (so the spawn stage is idle). -/
def spikeAndCoinState : GameState :=
  { player := ⟨⟨0, 0.8, 0⟩, 0, false⟩
    obstacles := [createObstacle 0 0 true]
    coins := [{ pos := ⟨0, 1.0, 0.5⟩, scale := ⟨1, 1, 1⟩, rotY := 0,
                active := true, growing := false }]
    groundBlocks := []
    gameActive := true
    score := 0
    speed := minSpeed
    lastObstacleZ := -999
    finalScore := 0 }

/-- A concrete active state with no obstacle or coin anywhere near the
player. -/
def emptyTrackState : GameState :=
  { player := ⟨⟨0, 0.8, 0⟩, 0, false⟩
    obstacles := []
    coins := []
    groundBlocks := []
    gameActive := true
    score := 0
    speed := minSpeed
    lastObstacleZ := -999
    finalScore := 0 }

/-- A sequence of per-tick time deltas, every one inside the clamp range
[0, 0.1]: 999 ticks at the 0.1 cap, one at 0.05, one more at 0.1. -/
def overshootTrace : List ℚ := List.replicate 999 (1/10) ++ [1/20, 1/10]

-- Auxiliary lemmas

theorem growObstacle_pos (dt : ℚ) (o : Obstacle) :
    (growObstacle dt o).pos = o.pos := by
  simp only [growObstacle]; split_ifs <;> rfl

theorem growObstacle_isDecoration (dt : ℚ) (o : Obstacle) :
    (growObstacle dt o).isDecoration = o.isDecoration := by
  simp only [growObstacle]; split_ifs <;> rfl

theorem growObstacle_collisionBox (dt : ℚ) (o : Obstacle) :
    collisionBoxOf (growObstacle dt o) = collisionBoxOf o := by
  simp only [growObstacle, collisionBoxOf]; split_ifs <;> rfl

theorem growCoin_pos (dt : ℚ) (c : Coin) : (growCoin dt c).pos = c.pos := by
  simp only [growCoin]; split_ifs <;> rfl

theorem growCoin_active (dt : ℚ) (c : Coin) :
    (growCoin dt c).active = c.active := by
  simp only [growCoin]; split_ifs <;> rfl

/-- The obstacle phase calls gameOver exactly when some obstacle that
survives pruning is a non-decoration whose collision box meets the player
box. -/
theorem obstaclePhase_hit (dt pz : ℚ) (pb : Box3) (l : List Obstacle) :
    (obstaclePhase dt pz pb l).2 = true ↔
      ∃ o ∈ l, pz - 5 ≤ o.pos.z ∧ o.isDecoration = false ∧
        pb.intersects (collisionBoxOf o) = true := by
  induction l with
  | nil => simp [obstaclePhase]
  | cons o rest ih =>
    simp only [obstaclePhase, growObstacle_pos, growObstacle_isDecoration,
      growObstacle_collisionBox]
    split_ifs with h1 h2 h3
    · rw [ih]
      constructor
      · rintro ⟨a, ha, hp⟩; exact ⟨a, List.mem_cons_of_mem _ ha, hp⟩
      · rintro ⟨a, ha, hp⟩
        rcases List.mem_cons.mp ha with rfl | ha
        · exact absurd hp.1 (by linarith)
        · exact ⟨a, ha, hp⟩
    · rw [show (((growObstacle dt o) :: (obstaclePhase dt pz pb rest).1,
          (obstaclePhase dt pz pb rest).2).2) =
          (obstaclePhase dt pz pb rest).2 from rfl, ih]
      constructor
      · rintro ⟨a, ha, hp⟩; exact ⟨a, List.mem_cons_of_mem _ ha, hp⟩
      · rintro ⟨a, ha, hp⟩
        rcases List.mem_cons.mp ha with rfl | ha
        · rw [h2] at hp; exact absurd hp.2.1 (by simp)
        · exact ⟨a, ha, hp⟩
    · simp only [true_iff]
      exact ⟨o, List.mem_cons_self o rest,
        not_lt.mp h1, Bool.not_eq_true _ ▸ Bool.of_not_eq_true h2, h3⟩
    · rw [show (((growObstacle dt o) :: (obstaclePhase dt pz pb rest).1,
          (obstaclePhase dt pz pb rest).2).2) =
          (obstaclePhase dt pz pb rest).2 from rfl, ih]
      constructor
      · rintro ⟨a, ha, hp⟩; exact ⟨a, List.mem_cons_of_mem _ ha, hp⟩
      · rintro ⟨a, ha, hp⟩
        rcases List.mem_cons.mp ha with rfl | ha
        · exact absurd hp.2.2 (by simpa using h3)
        · exact ⟨a, ha, hp⟩

/-- While active, update's resulting activity flag is the negation of the
obstacle-phase hit flag. -/
theorem update_gameActive (dt : ℚ) (g : GameState) (rs : List ℚ)
    (h : g.gameActive = true) :
    (update dt g rs).1.gameActive
      = !(obstaclePhase dt (tickPlayer g dt).pos.z
            (shrunkPlayerBox (tickPlayer g dt).pos)
            (tickSpawn g (tickPlayer g dt).pos.z rs).obstacles).2 := by
  simp [update, h]

/-- C1: while the run is active, a tick terminates the run (GameOver) if
and only if the player's bounding box shrunk inward by 0.1 intersects the
collision box of at least one live (surviving the 5-unit-behind pruning),
non-decoration obstacle, the box being centered on the obstacle's position
and sized by the declared per-type collision sizes (spike 0.6×0.6×0.6,
cactus 0.6×0.8×0.6, wood 0.7×0.5×0.6, UFO 0.8×0.6×0.6); tree decorations
never cause a collision. -/
theorem C1_collision_iff (dt : ℚ) (g : GameState) (rs : List ℚ)
    (hact : g.gameActive = true) :
    ((update dt g rs).1.gameActive = false ↔
      ∃ o ∈ (tickSpawn g (tickPlayer g dt).pos.z rs).obstacles,
        (tickPlayer g dt).pos.z - 5 ≤ o.pos.z ∧ o.isDecoration = false ∧
        Box3.intersects (shrunkPlayerBox (tickPlayer g dt).pos)
          (collisionBoxOf o) = true) ∧
    (∀ l z i, (createObstacle l z i).collisionSize = some ⟨0.6, 0.6, 0.6⟩) ∧
    (∀ l z i, (createCactus l z i).collisionSize = some ⟨0.6, 0.8, 0.6⟩) ∧
    (∀ l z i, (createWood l z i).collisionSize = some ⟨0.7, 0.5, 0.6⟩) ∧
    (∀ l z i, (createUfo l z i).collisionSize = some ⟨0.8, 0.6, 0.6⟩) ∧
    (∀ x y z i, (spawnTree x y z i).isDecoration = true) := by
  refine ⟨?_, fun l z i => rfl, fun l z i => rfl, fun l z i => rfl,
    fun l z i => rfl, fun x y z i => rfl⟩
  rw [update_gameActive dt g rs hact]
  have hb : ∀ b : Bool, ((!b) = false ↔ b = true) := by decide
  rw [hb]
  exact obstaclePhase_hit dt (tickPlayer g dt).pos.z
    (shrunkPlayerBox (tickPlayer g dt).pos)
    (tickSpawn g (tickPlayer g dt).pos.z rs).obstacles

/-- Witness for C1 at a concrete input: the state is active, and the
termination iff holds for it. -/
theorem C1_collision_iff_witness :
    spikeAndCoinState.gameActive = true ∧
    ((update 0 spikeAndCoinState []).1.gameActive = false ↔
      ∃ o ∈ (tickSpawn spikeAndCoinState
               (tickPlayer spikeAndCoinState 0).pos.z []).obstacles,
        (tickPlayer spikeAndCoinState 0).pos.z - 5 ≤ o.pos.z ∧
        o.isDecoration = false ∧
        Box3.intersects (shrunkPlayerBox (tickPlayer spikeAndCoinState 0).pos)
          (collisionBoxOf o) = true) :=
  ⟨rfl, (C1_collision_iff 0 spikeAndCoinState [] rfl).1⟩

/-- Iterating the acceleration step from speed s for n ticks of dt = 0.1
adds exactly n/100, as long as the cap is not reached. -/
theorem speed_foldl_replicate (n : ℕ) :
    ∀ s : ℚ, s + n / 100 ≤ 15 →
      List.foldl speedStep s (List.replicate n (1/10)) = s + n / 100 := by
  induction n with
  | zero => intro s _; simp
  | succ n ih =>
    intro s h
    push_cast at h
    have hs : s < maxSpeed := by
      unfold maxSpeed
      nlinarith [Nat.cast_nonneg (α := ℚ) n]
    rw [List.replicate_succ, List.foldl_cons]
    have hstep : speedStep s (1/10) = s + 1/100 := by
      unfold speedStep acceleration
      rw [if_pos hs]; norm_num
    rw [hstep, ih (s + 1/100) (by linarith)]
    push_cast; ring

/-- C2 fails as stated: starting from minSpeed, a sequence of valid ticks
(each dt in [0, 0.1]) drives the speed strictly above maxSpeed = 15,
because the acceleration step guards entry but never clamps the sum. -/
theorem C2_speed_cap_counterexample :
    (∀ d ∈ overshootTrace, 0 ≤ d ∧ d ≤ 1/10) ∧
    maxSpeed < List.foldl speedStep minSpeed overshootTrace := by
  constructor
  · intro d hd
    rcases List.mem_append.mp hd with hd | hd
    · rw [List.eq_of_mem_replicate hd]; norm_num
    · rcases hd with _ | ⟨_, hd⟩
      · norm_num
      · rcases hd with _ | ⟨_, hd⟩
        · norm_num
        · cases hd
  · unfold overshootTrace
    rw [List.foldl_append,
      speed_foldl_replicate 999 minSpeed (by unfold minSpeed; norm_num)]
    have h999 : minSpeed + (999 : ℕ) / 100 = (1499 : ℚ) / 100 := by
      unfold minSpeed; norm_num
    rw [h999]
    have s1 : speedStep (1499/100) (1/20) = 2999/200 := by
      unfold speedStep maxSpeed acceleration
      rw [if_pos (by norm_num)]; norm_num
    have s2 : speedStep (2999/200) (1/10) = 3001/200 := by
      unfold speedStep maxSpeed acceleration
      rw [if_pos (by norm_num)]; norm_num
    simp only [List.foldl_cons, List.foldl_nil, s1, s2]
    unfold maxSpeed; norm_num

/-- C2 (amended): while the run is active the speed is monotonically
non-decreasing, stays at or above minSpeed, gains exactly
acceleration·dt while below maxSpeed and stops changing once at or above
maxSpeed; it is only bounded by maxSpeed + acceleration·0.1 = 15.01 (a
cap-crossing tick may overshoot maxSpeed by up to acceleration·dt, since
the step has no clamp). -/
theorem C2_speed_amended (s dt : ℚ) (h5 : minSpeed ≤ s) (h0 : 0 ≤ dt)
    (h1 : dt ≤ 1/10) :
    s ≤ speedStep s dt ∧
    minSpeed ≤ speedStep s dt ∧
    (s < maxSpeed → speedStep s dt = s + acceleration * dt) ∧
    (maxSpeed ≤ s → speedStep s dt = s) ∧
    (s < maxSpeed + acceleration * (1/10) →
       speedStep s dt < maxSpeed + acceleration * (1/10)) ∧
    (∀ (g : GameState) (rs : List ℚ), g.gameActive = true →
       (update dt g rs).1.speed = speedStep g.speed dt) := by
  have hacc : (0 : ℚ) ≤ acceleration * dt :=
    mul_nonneg (by unfold acceleration; norm_num) h0
  have hmono : s ≤ speedStep s dt := by
    unfold speedStep
    split_ifs with h
    · linarith
    · exact le_refl s
  refine ⟨hmono, le_trans h5 hmono, ?_, ?_, ?_,
    fun g rs hg => by simp [update, hg]⟩
  · intro h; unfold speedStep; rw [if_pos h]
  · intro h; unfold speedStep; rw [if_neg (not_lt.mpr h)]
  · intro hb
    unfold speedStep
    split_ifs with h
    · have : acceleration * dt ≤ acceleration * (1/10) :=
        mul_le_mul_of_nonneg_left h1 (by unfold acceleration; norm_num)
      linarith
    · exact hb

/-- Witness for C2 (amended) at a concrete input. -/
theorem C2_speed_amended_witness :
    minSpeed ≤ (5 : ℚ) ∧ (0 : ℚ) ≤ 1/10 ∧ (1/10 : ℚ) ≤ 1/10 ∧
    (5 : ℚ) ≤ speedStep 5 (1/10) :=
  ⟨by norm_num [minSpeed], by norm_num, le_refl _,
    (C2_speed_amended 5 (1/10) (by norm_num [minSpeed]) (by norm_num)
      (le_refl _)).1⟩

/-- A coin more than 5 units behind the player in z is at distance well
over 1.5, so the behind-pruning and the collection test can never both
apply to one coin. -/
theorem distSq_large_of_behind (c p : Vec3) (h : c.z < p.z - 5) :
    (1.5 : ℚ) ^ 2 ≤ distSq c p := by
  unfold distSq
  nlinarith [sq_nonneg (c.x - p.x), sq_nonneg (c.y - p.y),
    sq_nonneg (c.z - p.z + 5)]

/-- Full characterization of the coin half of checkCollisions: the
survivors are the grown coins that are neither pruned nor collected, and
the score increment counts exactly the active coins strictly within
distance 1.5 of the player. -/
theorem coinPhase_spec (dt : ℚ) (p : Vec3) (l : List Coin) :
    coinPhase dt p l =
      (l.filterMap (fun c =>
          if c.pos.z < p.z - 5 then none
          else if c.active && decide (distSq c.pos p < 1.5 ^ 2) then none
          else some (growCoin dt c)),
       l.countP (fun c => c.active && decide (distSq c.pos p < 1.5 ^ 2))) := by
  induction l with
  | nil => simp [coinPhase]
  | cons c rest ih =>
    by_cases h1 : c.pos.z < p.z - 5
    · have hfar : (c.active && decide (distSq c.pos p < 1.5 ^ 2)) = false := by
        have := distSq_large_of_behind c.pos p h1
        simp [not_lt.mpr this]
      simp [coinPhase, growCoin_pos, growCoin_active, List.filterMap_cons,
        List.countP_cons, h1, hfar, ih]
    · by_cases h2 : c.active = true ∧ distSq c.pos p < 1.5 ^ 2
      · simp [coinPhase, growCoin_pos, growCoin_active, List.filterMap_cons,
          List.countP_cons, h1, h2, ih, Prod.ext_iff]
      · simp [coinPhase, growCoin_pos, growCoin_active, List.filterMap_cons,
          List.countP_cons, h1, h2, ih, Prod.ext_iff]

/-- C3: in a tick, an active coin is collected exactly when its center is
strictly within 1.5 units of the player's center (never at 1.5 or more);
a collected coin is removed from the survivor list, and the score grows by
exactly the number of collected coins (1 per coin, each at most once). -/
theorem C3_coin_collection (dt : ℚ) (p : Vec3) (l : List Coin) :
    coinPhase dt p l =
      (l.filterMap (fun c =>
          if c.pos.z < p.z - 5 then none
          else if c.active && decide (distSq c.pos p < 1.5 ^ 2) then none
          else some (growCoin dt c)),
       l.countP (fun c => c.active && decide (distSq c.pos p < 1.5 ^ 2))) ∧
    (∀ (g : GameState) (rs : List ℚ), g.gameActive = true →
       (update dt g rs).1.score = g.score +
         ((tickSpawn g (tickPlayer g dt).pos.z rs).coins.countP
           (fun c => c.active &&
             decide (distSq c.pos (tickPlayer g dt).pos < 1.5 ^ 2)))) := by
  refine ⟨coinPhase_spec dt p l, fun g rs hg => ?_⟩
  have hc := congrArg Prod.snd (coinPhase_spec dt (tickPlayer g dt).pos
    (tickSpawn g (tickPlayer g dt).pos.z rs).coins)
  simp only [update, hg, Bool.true_eq_false, if_false]
  simpa using hc

/-- Witness for C3 at a concrete input: an active state whose single coin
sits 0.5 ahead and 0.2 above the player (distance² = 0.29 < 2.25), so the
tick scores exactly one point. -/
theorem C3_coin_collection_witness :
    spikeAndCoinState.gameActive = true ∧
    (update 0 spikeAndCoinState []).1.score = spikeAndCoinState.score +
      ((tickSpawn spikeAndCoinState
          (tickPlayer spikeAndCoinState 0).pos.z []).coins.countP
        (fun c => c.active &&
          decide (distSq c.pos (tickPlayer spikeAndCoinState 0).pos
            < 1.5 ^ 2))) :=
  ⟨rfl, (C3_coin_collection 0 ⟨0, 0, 0⟩ []).2 spikeAndCoinState [] rfl⟩

/-- C4: a jump input while active and grounded launches at velocity
exactly 15; while airborne a tick subtracts 35·dt from the velocity and
adds the new velocity times dt to the height, landing (snap to 0.8, zero
velocity, grounded) as soon as the new height is at or below 0.8; a
release above velocity 5 clamps to exactly 5, and a release at 5 or below
changes nothing. -/
theorem C4_jump_physics :
    (∀ g : GameState, g.gameActive = true → g.player.isJumping = false →
       (onInputStart g).player.verticalVelocity = 15 ∧
       (onInputStart g).player.isJumping = true ∧
       (onInputStart g).player.pos = g.player.pos) ∧
    (∀ (sp dt : ℚ) (p : Player), p.isJumping = true →
       (0.8 < p.pos.y + (p.verticalVelocity - 35 * dt) * dt →
          playerUpdate sp dt p =
            ⟨⟨0, p.pos.y + (p.verticalVelocity - 35 * dt) * dt,
              p.pos.z + sp * dt⟩, p.verticalVelocity - 35 * dt, true⟩) ∧
       (p.pos.y + (p.verticalVelocity - 35 * dt) * dt ≤ 0.8 →
          playerUpdate sp dt p = ⟨⟨0, 0.8, p.pos.z + sp * dt⟩, 0, false⟩)) ∧
    (∀ g : GameState, g.gameActive = true → g.player.isJumping = true →
       5 < g.player.verticalVelocity →
       (onInputEnd g).player.verticalVelocity = 5) ∧
    (∀ g : GameState, g.player.verticalVelocity ≤ 5 → onInputEnd g = g) := by
  refine ⟨?_, ?_, ?_, ?_⟩
  · intro g hact hj
    simp [onInputStart, hact, hj]
  · intro sp dt p hj
    constructor
    · intro hup
      simp [playerUpdate, hj, not_le.mpr hup]
    · intro hdown
      simp [playerUpdate, hj, hdown]
  · intro g hact hj hv
    simp [onInputEnd, hact, hj, hv]
  · intro g hv
    unfold onInputEnd
    split_ifs with h1 h2
    · rfl
    · exact absurd h2.2 (not_lt.mpr hv)
    · rfl

/-- Witness for C4 at a concrete input: a grounded active player gains
velocity 15 from a jump press. -/
theorem C4_jump_physics_witness :
    emptyTrackState.gameActive = true ∧
    emptyTrackState.player.isJumping = false ∧
    (onInputStart emptyTrackState).player.verticalVelocity = 15 :=
  ⟨rfl, rfl, (C4_jump_physics.1 emptyTrackState rfl rfl).1⟩

/-- C5: item spawning for a ground row as a function of z, lastObstacleZ
and the uniform draws: rows with z ≤ 5 spawn no items; a row within 6
units of the last obstacle spawns only a low solitary coin at draw < 0.06;
otherwise a first draw < 0.3 spawns exactly one obstacle typed by a single
second draw (UFO < 0.10, cactus < 0.20, wood < 0.50, spike otherwise),
sets lastObstacleZ to z, and a third draw < 0.4 adds a companion coin that
is low exactly for a UFO and high otherwise; with the first draw ≥ 0.3 a
second draw < 0.08 spawns a solitary low coin.  High coins sit at y = 2.5
and low coins at y = 1.0. -/
theorem C5_spawn_policy (z lastZ d0 d1 d2 d3 : ℚ) (inst : Bool)
    (ds rest : List ℚ) :
    (¬ 5 < z →
       (spawnGroundRow z inst lastZ (d0 :: ds)).coins = [] ∧
       (∀ o ∈ (spawnGroundRow z inst lastZ (d0 :: ds)).obstacles,
          o.isDecoration = true) ∧
       (spawnGroundRow z inst lastZ (d0 :: ds)).lastObstacleZ = lastZ) ∧
    (5 < z →
       (spawnGroundRow z inst lastZ (d0 :: ds)).coins =
         (spawnItems z lastZ inst ds).coins ∧
       (spawnGroundRow z inst lastZ (d0 :: ds)).obstacles =
         (if d0 < 0.6 then [spawnTree laneWidth 0.6 z inst] else []) ++
           (spawnItems z lastZ inst ds).obstacles ∧
       (spawnGroundRow z inst lastZ (d0 :: ds)).lastObstacleZ =
         (spawnItems z lastZ inst ds).lastObstacleZ) ∧
    (z - lastZ < 6 →
       spawnItems z lastZ inst (d1 :: rest) =
         if d1 < 0.06 then ⟨[], [createCoin 0 z false inst], lastZ, rest⟩
         else ⟨[], [], lastZ, rest⟩) ∧
    (¬ z - lastZ < 6 → d1 < 0.3 →
       spawnItems z lastZ inst (d1 :: d2 :: d3 :: rest) =
         ⟨[if d2 < 0.10 then createUfo 0 z inst
           else if d2 < 0.20 then createCactus 0 z inst
           else if d2 < 0.50 then createWood 0 z inst
           else createObstacle 0 z inst],
          if d3 < 0.4 then [createCoin 0 z (!decide (d2 < 0.10)) inst]
          else [],
          z, rest⟩) ∧
    (¬ z - lastZ < 6 → ¬ d1 < 0.3 →
       spawnItems z lastZ inst (d1 :: d2 :: rest) =
         if d2 < 0.08 then ⟨[], [createCoin 0 z false inst], lastZ, rest⟩
         else ⟨[], [], lastZ, rest⟩) ∧
    (∀ l w i, (createCoin l w true i).pos.y = 2.5 ∧
       (createCoin l w false i).pos.y = 1.0) := by
  refine ⟨?_, ?_, ?_, ?_, ?_, fun l w i => ⟨rfl, rfl⟩⟩
  · intro hz
    simp only [spawnGroundRow, takeRand, gt_iff_lt]
    rw [if_neg hz]
    refine ⟨rfl, ?_, rfl⟩
    intro o ho
    split_ifs at ho
    all_goals simp only [List.mem_singleton, List.not_mem_nil] at ho
    all_goals (subst ho; rfl)
  · intro hz
    simp only [spawnGroundRow, takeRand, gt_iff_lt]
    rw [if_pos hz]
    exact ⟨rfl, rfl, rfl⟩
  · intro hnear
    simp only [spawnItems, takeRand]
    rw [if_pos hnear]
  · intro hfar hobs
    simp only [spawnItems, takeRand]
    rw [if_neg hfar, if_pos hobs]
    split_ifs <;> rfl
  · intro hfar hobs
    simp only [spawnItems, takeRand]
    rw [if_neg hfar, if_neg hobs]

/-- Witness for C5 at a concrete input: z = 7 far from the last obstacle,
draws 0.2 (obstacle branch), 0.05 (UFO), 0.3 (companion coin, low). -/
theorem C5_spawn_policy_witness :
    ¬ (7 : ℚ) - (-999) < 6 ∧ (0.2 : ℚ) < 0.3 ∧
    spawnItems 7 (-999) false [0.2, 0.05, 0.3] =
      ⟨[createUfo 0 7 false], [createCoin 0 7 false false], 7, []⟩ := by
  refine ⟨by norm_num, by norm_num, ?_⟩
  rw [(C5_spawn_policy 7 (-999) 0 0.2 0.05 0.3 false [] []).2.2.2.1
    (by norm_num) (by norm_num)]
  norm_num

/-- C6 fails as stated: in the very tick that detects the collision, the
remainder of checkCollisions still runs, so a coin within reach is still
collected and the score still increments after the GameOver transition
(the recorded final score keeps the value at termination). -/
theorem C6_freeze_counterexample :
    (update 0 spikeAndCoinState []).1.gameActive = false ∧
    (update 0 spikeAndCoinState []).1.finalScore = 0 ∧
    (update 0 spikeAndCoinState []).1.score = 1 := by
  norm_num [update, spikeAndCoinState, tickPlayer, playerUpdate, tickSpawn,
    obstaclePhase, coinPhase, growObstacle, growCoin, shrunkPlayerBox,
    playerBox, Box3.expandByScalar, Box3.intersects, collisionBoxOf,
    createObstacle, distSq, speedStep, minSpeed, maxSpeed, acceleration]

/-- C6 (amended): on a detected collision the run transitions to GameOver
with the recorded final score equal to the score at the moment of
termination, and from the next tick on the whole update is a no-op until
reset; within the colliding tick itself, however, the remaining coin
processing still runs (coins in range are still collected, incrementing
the live score but not the recorded final score). -/
theorem C6_gameover_freeze :
    (∀ (dt : ℚ) (g : GameState) (rs : List ℚ), g.gameActive = false →
       update dt g rs = (g, rs)) ∧
    (∀ (dt : ℚ) (g : GameState) (rs : List ℚ), g.gameActive = true →
       ((update dt g rs).1.gameActive = false →
          (update dt g rs).1.finalScore = g.score) ∧
       (update dt g rs).1.score = g.score +
         (coinPhase dt (tickPlayer g dt).pos
            (tickSpawn g (tickPlayer g dt).pos.z rs).coins).2) := by
  constructor
  · intro dt g rs h
    simp [update, h]
  · intro dt g rs hg
    constructor
    · intro hdead
      rw [update_gameActive dt g rs hg] at hdead
      have hhit : (obstaclePhase dt (tickPlayer g dt).pos.z
          (shrunkPlayerBox (tickPlayer g dt).pos)
          (tickSpawn g (tickPlayer g dt).pos.z rs).obstacles).2 = true := by
        revert hdead
        cases (obstaclePhase dt (tickPlayer g dt).pos.z
          (shrunkPlayerBox (tickPlayer g dt).pos)
          (tickSpawn g (tickPlayer g dt).pos.z rs).obstacles).2 <;> simp
      simp [update, hg, hhit]
    · simp [update, hg]

/-- Witness for C6 (amended) at a concrete input: a dead state is left
untouched by update. -/
theorem C6_gameover_freeze_witness :
    ({ emptyTrackState with gameActive := false } : GameState).gameActive
      = false ∧
    update 1 { emptyTrackState with gameActive := false } [] =
      ({ emptyTrackState with gameActive := false }, []) :=
  ⟨rfl, C6_gameover_freeze.1 1 { emptyTrackState with gameActive := false }
    [] rfl⟩

/-- The ground blocks of an instant row are the three blocks of the row,
already settled at their resting heights, for any draw stream. -/
theorem spawnGroundRow_ground_instant (z lastZ : ℚ) (rs : List ℚ) :
    (spawnGroundRow z true lastZ rs).ground =
      [⟨⟨0, 0, z⟩, 0, false, false, 0⟩,
       ⟨⟨-laneWidth, -0.2, z⟩, -0.2, false, false, 0⟩,
       ⟨⟨laneWidth, -0.2, z⟩, -0.2, false, false, 0⟩] := by
  cases rs with
  | nil =>
    simp only [spawnGroundRow, takeRand]
    split <;> rfl
  | cons d ds =>
    simp only [spawnGroundRow, takeRand]
    split <;> rfl

/-- The ground part of the initial population is draw-independent: three
settled blocks per requested row, in row order. -/
theorem populateRows_ground (zs : List ℚ) :
    ∀ (lastZ : ℚ) (rs : List ℚ),
      (populateRows zs lastZ rs).1 = zs.flatMap (fun z =>
        [⟨⟨0, 0, z⟩, 0, false, false, 0⟩,
         ⟨⟨-laneWidth, -0.2, z⟩, -0.2, false, false, 0⟩,
         ⟨⟨laneWidth, -0.2, z⟩, -0.2, false, false, 0⟩]) := by
  induction zs with
  | nil => intro lastZ rs; rfl
  | cons z zs ih =>
    intro lastZ rs
    simp only [populateRows, List.flatMap_cons, spawnGroundRow_ground_instant,
      ih]

/-- C7: immediately after reset — from any prior state — the score is 0,
the speed is minSpeed, the player is at its initial pose (position
(0, 0.8, 0), zero vertical velocity, grounded), the run is active, the
ground collection holds exactly the three settled blocks of each row
z = -5..14 (instant population), and the obstacle/coin collections are
rebuilt independently of the prior state. -/
theorem C7_reset_roundtrip (g g2 : GameState) (rs : List ℚ) :
    (resetGame g rs).score = 0 ∧
    (resetGame g rs).speed = minSpeed ∧
    (resetGame g rs).player = ⟨⟨0, 0.8, 0⟩, 0, false⟩ ∧
    (resetGame g rs).gameActive = true ∧
    (resetGame g rs).groundBlocks = rowZs.flatMap (fun z =>
      [⟨⟨0, 0, z⟩, 0, false, false, 0⟩,
       ⟨⟨-laneWidth, -0.2, z⟩, -0.2, false, false, 0⟩,
       ⟨⟨laneWidth, -0.2, z⟩, -0.2, false, false, 0⟩]) ∧
    (resetGame g rs).obstacles = (resetGame g2 rs).obstacles ∧
    (resetGame g rs).coins = (resetGame g2 rs).coins :=
  ⟨rfl, rfl, rfl, rfl, populateRows_ground rowZs (-999) rs, rfl, rfl⟩

/-- C8 fails as stated: even at dt = 0 the pop-in step rescales a freshly
spawned growing obstacle whose uniform 0.1 scale is not proportional to
its non-uniform target scale — a just-created cactus (reachable on the
spawn tick) comes out of the lifecycle pass with scale (0.1, 0.12, 0.1)
instead of (0.1, 0.1, 0.1). -/
theorem C8_dt0_counterexample :
    (obstaclePhase 0 0 (shrunkPlayerBox ⟨0, 0.8, 0⟩)
       [createCactus 0 10 false]).1 ≠ [createCactus 0 10 false] := by
  norm_num [obstaclePhase, growObstacle, createCactus, shrunkPlayerBox,
    playerBox, Box3.expandByScalar, Box3.intersects, collisionBoxOf,
    Obstacle.mk.injEq, Vec3.mk.injEq, List.cons.injEq]

/-- C8 (amended): with dt = 0 the lifecycle step leaves every entity's
position, rotation and flags unchanged on all states satisfying the
between-tick invariants (a rising block at least 0.05 from its resting
height, a block more than 3 behind the player already falling and not
rising, a falling block at or above height -10, a growing entity strictly
below a positive target with scale proportional to it); the single
exception, forced by the counterexample, is a growing obstacle whose scale
is not proportional to its non-uniform target (as freshly spawned), whose
y/z scale components are rescaled even at dt = 0. -/
theorem C8_dt0_idempotent :
    (∀ (pz : ℚ) (b : GroundBlock),
       (b.rising = true → 0.05 ≤ |b.pos.y - b.originalY|) →
       (b.pos.z < pz - 3 → b.falling = true ∧ b.rising = false) →
       (b.falling = true → -10 ≤ b.pos.y) →
       groundBlockStep 0 pz b = some b) ∧
    (∀ o : Obstacle,
       (o.growing = true →
          o.scale.x < (o.targetScale.getD ⟨1, 1, 1⟩).x ∧
          0 < (o.targetScale.getD ⟨1, 1, 1⟩).x ∧
          o.scale.y * (o.targetScale.getD ⟨1, 1, 1⟩).x
            = (o.targetScale.getD ⟨1, 1, 1⟩).y * o.scale.x ∧
          o.scale.z * (o.targetScale.getD ⟨1, 1, 1⟩).x
            = (o.targetScale.getD ⟨1, 1, 1⟩).z * o.scale.x) →
       growObstacle 0 o = o) ∧
    (∀ c : Coin,
       (c.growing = true →
          c.scale.x < 1 ∧ c.scale.y = c.scale.x ∧ c.scale.z = c.scale.x) →
       growCoin 0 c = c) ∧
    (∀ c : Coin, c.rotY + 2 * 0 = c.rotY) := by
  have hT : ((true : Bool) = true) := rfl
  have hF : ¬((false : Bool) = true) := by simp
  refine ⟨?_, ?_, ?_, fun c => by ring⟩
  · intro pz b h1 h2 h3
    obtain ⟨⟨bx, byy, bz⟩, borig, bfall, brise, bvel⟩ := b
    dsimp only at h1 h2 h3
    unfold groundBlockStep
    dsimp only
    simp only [mul_zero, add_zero, sub_zero, zero_mul]
    cases brise with
    | true =>
      have h1' := h1 rfl
      rw [if_pos hT, if_neg (not_lt.mpr h1')]
      by_cases hb : bz < pz - 3
      · rcases h2 hb with ⟨_, hr⟩
        exact absurd hr (by simp)
      · rw [if_neg hb]
        cases bfall with
        | true =>
          have h3' := h3 rfl
          rw [if_pos hT, if_neg (not_lt.mpr h3')]
        | false => rw [if_neg hF]
    | false =>
      rw [if_neg hF]
      by_cases hb : bz < pz - 3
      · rcases h2 hb with ⟨hf, _⟩
        subst hf
        rw [if_pos hb, if_pos hT, if_neg (not_lt.mpr (h3 rfl))]
      · rw [if_neg hb]
        cases bfall with
        | true =>
          have h3' := h3 rfl
          rw [if_pos hT, if_neg (not_lt.mpr h3')]
        | false => rw [if_neg hF]
  · intro o ho
    obtain ⟨pos, ⟨sx, sy, sz⟩, dec, gr, tgt, csz⟩ := o
    cases gr with
    | false => simp [growObstacle]
    | true =>
      obtain ⟨hlt, htx, hy, hz⟩ := ho rfl
      dsimp only at hlt htx hy hz
      unfold growObstacle
      dsimp only
      simp only [mul_zero, add_zero]
      rw [if_pos trivial, if_neg (not_le.mpr hlt)]
      simp only [Obstacle.mk.injEq, Vec3.mk.injEq, and_true, true_and]
      have htx0 : (tgt.getD ⟨1, 1, 1⟩).x ≠ 0 := ne_of_gt htx
      refine ⟨?_, ?_, ?_⟩
      · field_simp
      · field_simp
        linarith
      · field_simp
        linarith
  · intro c hc
    obtain ⟨pos, ⟨sx, sy, sz⟩, rot, act, gr⟩ := c
    cases gr with
    | false => simp [growCoin]
    | true =>
      obtain ⟨hlt, hy, hz⟩ := hc rfl
      dsimp only at hlt hy hz
      unfold growCoin
      dsimp only
      simp only [mul_zero, add_zero]
      rw [if_pos trivial, if_neg (not_le.mpr hlt)]
      rw [hy, hz]

/-- Witness for C8 (amended) at a concrete input: a freshly spawned rising
ground block (5 units from its resting height) is untouched by a dt = 0
step. -/
theorem C8_dt0_idempotent_witness :
    ((0.05 : ℚ) ≤ |(-5 : ℚ) - 0|) ∧
    groundBlockStep 0 0 ⟨⟨0, -5, 10⟩, 0, false, true, 0⟩ =
      some ⟨⟨0, -5, 10⟩, 0, false, true, 0⟩ :=
  ⟨by norm_num, C8_dt0_idempotent.1 0 ⟨⟨0, -5, 10⟩, 0, false, true, 0⟩
    (fun _ => by norm_num)
    (fun h => absurd h (by norm_num))
    (fun h => by simp at h)⟩

/-- C9: the collision box of an obstacle depends only on its position and
declared collisionSize — not on its current scale or growth flag — so an
obstacle still in its pop-in phase (scale 0.1, growing) is collidable with
its full-size hitbox from the tick it spawns: a fresh non-instant spike at
the player's position already triggers the hit. -/
theorem C9_hitbox_scale_independent :
    (∀ (o : Obstacle) (s : Vec3) (b : Bool),
       collisionBoxOf { o with scale := s, growing := b } =
         collisionBoxOf o) ∧
    (∀ z dt : ℚ,
       (obstaclePhase dt z (shrunkPlayerBox ⟨0, 0.8, z⟩)
          [createObstacle 0 z false]).2 = true) ∧
    (createObstacle 0 0 false).growing = true ∧
    (createObstacle 0 0 false).scale = ⟨0.1, 0.1, 0.1⟩ := by
  refine ⟨fun o s b => rfl, ?_, rfl, rfl⟩
  intro z dt
  rw [obstaclePhase_hit]
  refine ⟨createObstacle 0 z false, List.mem_singleton_self _,
    by dsimp [createObstacle]; linarith, rfl, ?_⟩
  simp only [shrunkPlayerBox, playerBox, Box3.expandByScalar,
    collisionBoxOf, createObstacle, Option.getD, Box3.intersects,
    Bool.not_eq_true', Bool.or_eq_false_iff, decide_eq_false_iff_not,
    not_lt]
  norm_num
  constructor <;> linarith

/-- Every obstacle surviving the obstacle phase sits no more than 5 units
behind the player. -/
theorem obstaclePhase_mem (dt pz : ℚ) (pb : Box3) :
    ∀ l, ∀ o ∈ (obstaclePhase dt pz pb l).1, pz - 5 ≤ o.pos.z := by
  intro l
  induction l with
  | nil => intro o ho; simp [obstaclePhase] at ho
  | cons c rest ih =>
    intro o ho
    simp only [obstaclePhase] at ho
    split_ifs at ho with h1 h2 h3
    · exact ih o ho
    · rcases List.mem_cons.mp ho with rfl | hmem
      · exact not_lt.mp h1
      · exact ih o hmem
    · rcases List.mem_cons.mp ho with rfl | hmem
      · exact not_lt.mp h1
      · exact ih o hmem
    · rcases List.mem_cons.mp ho with rfl | hmem
      · exact not_lt.mp h1
      · exact ih o hmem

/-- Every coin surviving the coin phase sits no more than 5 units behind
the player. -/
theorem coinPhase_mem (dt : ℚ) (p : Vec3) :
    ∀ l, ∀ c ∈ (coinPhase dt p l).1, p.z - 5 ≤ c.pos.z := by
  intro l
  induction l with
  | nil => intro c hc; simp [coinPhase] at hc
  | cons a rest ih =>
    intro c hc
    simp only [coinPhase] at hc
    split_ifs at hc with h1 h2
    · exact ih c hc
    · exact ih c hc
    · rcases List.mem_cons.mp hc with rfl | hmem
      · exact not_lt.mp h1
      · exact ih c hmem

/-- C10: within a tick, obstacles and coins more than 5 units behind the
player are pruned before any collision or collection test on them (a
behind-the-threshold entity is dropped without affecting the hit flag or
the score, in particular a behind coin is removed without scoring), and at
the end of every active tick every tracked obstacle and coin satisfies
z ≥ playerZ - 5. -/
theorem C10_pruning :
    (∀ (dt pz : ℚ) (pb : Box3) (l : List Obstacle),
       ∀ o ∈ (obstaclePhase dt pz pb l).1, pz - 5 ≤ o.pos.z) ∧
    (∀ (dt : ℚ) (p : Vec3) (l : List Coin),
       ∀ c ∈ (coinPhase dt p l).1, p.z - 5 ≤ c.pos.z) ∧
    (∀ (dt pz : ℚ) (pb : Box3) (o : Obstacle) (l : List Obstacle),
       o.pos.z < pz - 5 →
       obstaclePhase dt pz pb (o :: l) = obstaclePhase dt pz pb l) ∧
    (∀ (dt : ℚ) (p : Vec3) (c : Coin) (l : List Coin), c.pos.z < p.z - 5 →
       coinPhase dt p (c :: l) = coinPhase dt p l) ∧
    (∀ (dt : ℚ) (g : GameState) (rs : List ℚ), g.gameActive = true →
       (∀ o ∈ (update dt g rs).1.obstacles,
          (update dt g rs).1.player.pos.z - 5 ≤ o.pos.z) ∧
       (∀ c ∈ (update dt g rs).1.coins,
          (update dt g rs).1.player.pos.z - 5 ≤ c.pos.z)) := by
  refine ⟨fun dt pz pb l => obstaclePhase_mem dt pz pb l,
    fun dt p l => coinPhase_mem dt p l, ?_, ?_, ?_⟩
  · intro dt pz pb o l h
    simp only [obstaclePhase, growObstacle_pos]
    rw [if_pos h]
  · intro dt p c l h
    simp only [coinPhase, growCoin_pos]
    rw [if_pos h]
  · intro dt g rs hg
    constructor
    · intro o ho
      simp only [update, hg, Bool.true_eq_false, if_false] at ho ⊢
      exact obstaclePhase_mem dt (tickPlayer g dt).pos.z
        (shrunkPlayerBox (tickPlayer g dt).pos) _ o ho
    · intro c hc
      simp only [update, hg, Bool.true_eq_false, if_false] at hc ⊢
      rcases List.mem_map.mp hc with ⟨c0, hc0, rfl⟩
      exact coinPhase_mem dt (tickPlayer g dt).pos _ c0 hc0

/-- Witness for C10 at a concrete input: a coin 10 units behind the player
is pruned without scoring. -/
theorem C10_pruning_witness :
    ((-10 : ℚ) < (0 : ℚ) - 5) ∧
    coinPhase 0 ⟨0, 0.8, 0⟩
      [⟨⟨0, 1, -10⟩, ⟨1, 1, 1⟩, 0, true, false⟩] = ([], 0) := by
  refine ⟨by norm_num, ?_⟩
  rw [C10_pruning.2.2.2.1 0 ⟨0, 0.8, 0⟩ _ [] (by norm_num)]
  rfl

end JumpyDash
